import Mathlib

/-!
Shallow embedding of `src/meraki_requests_stage.py`, a resilient Meraki API
client layer: credential normalisation (`_clean_key`, `_mask`, the validity
check inlined in `main`), the tenacity-driven retrying request executor
(`_get`, `_put`, `rate_limit_sleep`), the name-to-id resolvers
(`find_org_id_by_name`, `find_network_id`) and the sanity checker
(`sanity_list_orgs`).

Python strings are modelled as `List Char`; HTTP transports as functions from
attempt number (1-based) to the response the server produces for that attempt;
JSON as an inductive value type.  Python exceptions are an inductive `PyErr`;
`SystemExit` is a `BaseException` (not an `Exception`), which is exactly why
tenacity's default retry predicate does not retry it.
-/

set_option autoImplicit false

namespace Meraki

/-- Python strings, modelled at character level. -/
abbrev PyStr := List Char

/-- The whitespace characters recognised by Python's `str.strip()`
(ASCII subset). -/
def pyIsSpace (c : Char) : Bool :=
  c = ' ' || c = '\t' || c = '\n' || c = '\r' || c = '\x0b' || c = '\x0c'

/-- Remove trailing characters satisfying `p` (the right half of
Python's `str.strip(chars)`). -/
def rstripWhile (p : Char → Bool) (l : PyStr) : PyStr :=
  (l.reverse.dropWhile p).reverse

/-- Python's `str.strip(chars)`: remove ALL leading and trailing characters
satisfying `p` (not merely one layer). -/
def pyStrip (p : Char → Bool) (l : PyStr) : PyStr :=
  rstripWhile p (l.dropWhile p)

/-- Python's `str.lower()` (ASCII behaviour suffices here). -/
def pyLower (l : PyStr) : PyStr := l.map Char.toLower

/-- Parse a nonempty all-digit character list as a natural number. -/
def digitsToNat? (ds : PyStr) : Option Nat :=
  if ds = [] then none
  else if ds.all Char.isDigit then
    some (ds.foldl (fun a c => a * 10 + (c.toNat - 48)) 0)
  else none

/-- Python's `int(s)` on a string: surrounding whitespace is ignored, an
optional sign precedes a nonempty digit run; anything else raises
`ValueError` (modelled as `none`). -/
def pyInt? (l : PyStr) : Option Int :=
  match pyStrip pyIsSpace l with
  | '+' :: ds => (digitsToNat? ds).map Int.ofNat
  | '-' :: ds => (digitsToNat? ds).map (fun n => -(n : Int))
  | ds => (digitsToNat? ds).map Int.ofNat

/-- Decoded JSON values (`r.json()` output). -/
inductive Json where
  | null
  | bool (b : Bool)
  | num (n : Int)
  | str (s : String)
  | arr (items : List Json)
  | obj (kvs : List (String × Json))
deriving Repr

/-- Python `dict.get(k)`: first binding of `k`, if any. -/
def dictGet (kvs : List (String × Json)) (k : String) : Option Json :=
  match kvs with
  | [] => none
  | (k', v) :: rest => if k' = k then some v else dictGet rest k

/-- The double-quote character test. -/
def isDQuote (c : Char) : Bool := c = '"'

/-- The single-quote character test. -/
def isSQuote (c : Char) : Bool := c = '\''

/-- `_clean_key`: `(v or "").strip().strip(DQUOTE).strip(QUOTE)`.  Absent input
becomes the empty string; then all surrounding whitespace, then all
surrounding double quotes, then all surrounding single quotes are removed. -/
def _clean_key (v : Option PyStr) : PyStr :=
  pyStrip isSQuote (pyStrip isDQuote (pyStrip pyIsSpace (v.getD [])))

/-- `_mask`: empty stays empty; length ≤ 6 is fully masked; otherwise the
first 3 and last 3 characters survive around a run of `*`. -/
def _mask (k : PyStr) : PyStr :=
  if k = [] then []
  else if k.length ≤ 6 then List.replicate k.length '*'
  else k.take 3 ++ List.replicate (k.length - 6) '*' ++ k.drop (k.length - 3)

/-- The key validity check inlined in `main`:
`not api or api.lower() in PLACEHOLDERS or len(api) < 20` aborts, i.e. the
candidate is valid iff none of the three conditions holds. -/
def validate (api : PyStr) : Bool :=
  !(api.isEmpty
    || (pyLower api = "your_api_key_here".toList
        || pyLower api = "placeholder".toList)
    || api.length < 20)

/-- Python exceptions raised by the client layer.  `systemExit` models
`SystemExit`, which derives from `BaseException` but not `Exception`;
`retryError` models `tenacity.RetryError`, which wraps the final attempt's
exception when the attempt budget is exhausted. -/
inductive PyErr where
  | systemExit (msg : PyStr)
  | exc (msg : String)
  | httpError (status : Nat)
  | valueError (msg : String)
  | keyError (key : String)
  | attributeError (msg : String)
  | typeError (msg : String)
  | retryError (last : PyErr)
deriving Repr, DecidableEq

/-- Whether the error is an instance of Python's `Exception` class — the
default retry predicate of tenacity.  `SystemExit` is not. -/
def isException : PyErr → Bool
  | .systemExit _ => false
  | _ => true

/-- One HTTP response as seen by the client: status code, the
`Retry-After` header if present, the body text and the decoded JSON body. -/
structure Response where
  status : Nat
  retryAfter : Option PyStr
  text : PyStr
  json : Json
deriving Repr

/-- `rate_limit_sleep(resp)`: on 429, read `Retry-After` (defaulting to the
string "1" when the header is absent), convert with `int(...)` — which raises
`ValueError` for a non-numeric value — and `time.sleep` that many seconds
(`time.sleep` raises `ValueError` for a negative argument).  Returns the
seconds slept. -/
def rate_limit_sleep (r : Response) : Except PyErr Nat :=
  if r.status = 429 then
    match pyInt? (r.retryAfter.getD "1".toList) with
    | none => .error (.valueError "invalid literal for int() with base 10")
    | some n =>
      if n < 0 then .error (.valueError "sleep length must be non-negative")
      else .ok n.toNat
  else .ok 0

/-- Outcome of one attempt of a request body: its result and the seconds it
slept (the explicit `Retry-After` sleep). -/
structure AttemptOut (α : Type) where
  result : Except PyErr α
  slept : Nat
deriving Repr

/-- The fixed guidance text of the 401 `SystemExit` message in `_get`,
up to the point where the truncated response body is appended. -/
def authChecklist : PyStr :=
  ("401 Unauthorized from Meraki API.\n"
   ++ "Checklist:\n"
   ++ " - Org > Settings > Enable Dashboard API access\n"
   ++ " - API key user has org access\n"
   ++ " - If API IP allow list is on, your public IP is whitelisted\n"
   ++ " - If unsure, regenerate key and update .env\n"
   ++ "Response body: ").toList

/-- One attempt of `_get`'s body against transport `t` (attempt number `i`):
401 raises `SystemExit` with the checklist plus the first 400 characters of
the body; 429 sleeps per `rate_limit_sleep` then raises
`Exception("429 rate limited")`; any other status ≥ 400 raises `HTTPError`
via `raise_for_status`; otherwise the JSON body is returned. -/
def getBody (t : Nat → Response) (i : Nat) : AttemptOut Json :=
  let r := t i
  if r.status = 401 then
    ⟨.error (.systemExit (authChecklist ++ r.text.take 400)), 0⟩
  else if r.status = 429 then
    match rate_limit_sleep r with
    | .error e => ⟨.error e, 0⟩
    | .ok n => ⟨.error (.exc "429 rate limited"), n⟩
  else if 400 ≤ r.status then
    ⟨.error (.httpError r.status), 0⟩
  else
    ⟨.ok r.json, 0⟩

/-- One attempt of `_put`'s body: unlike `_get` there is NO special 401
branch — 401 falls through to `raise_for_status` and raises a plain
`HTTPError`.  429 sleeps then raises `Exception("429")`. -/
def putBody (t : Nat → Response) (i : Nat) : AttemptOut Json :=
  let r := t i
  if r.status = 429 then
    match rate_limit_sleep r with
    | .error e => ⟨.error e, 0⟩
    | .ok n => ⟨.error (.exc "429"), n⟩
  else if 400 ≤ r.status then
    ⟨.error (.httpError r.status), 0⟩
  else
    ⟨.ok r.json, 0⟩

/-- `wait_exponential(min=1, max=8)`: after the n-th failed attempt the
driver sleeps `clamp(2^n, 1, 8)` seconds before the next attempt. -/
def tenacityWait (n : Nat) : Nat := max 1 (min (2 ^ n) 8)

/-- Result of a whole retry-driven call: final outcome, number of attempts
actually made, total explicit `Retry-After` sleep, and total backoff wait. -/
structure RunOut (α : Type) where
  result : Except PyErr α
  attempts : Nat
  rateSleep : Nat
  backoffWait : Nat
deriving Repr

/-- The tenacity retry driver, `@retry(stop=stop_after_attempt(5),
wait=wait_exponential(min=1, max=8))` with the default retry predicate
(`Exception` only) and default `reraise=False`:
an attempt that raises an `Exception` is retried after the backoff wait
while attempts remain; once the budget is exhausted a `RetryError` wrapping
the last exception is raised; a `BaseException`-only error (`SystemExit`)
propagates immediately, unretried. -/
def tenacityLoop {α : Type} (body : Nat → AttemptOut α) :
    Nat → Nat → RunOut α
  | attempt, remaining =>
    match (body attempt).result with
    | .ok v => ⟨.ok v, attempt, (body attempt).slept, 0⟩
    | .error e =>
      if isException e then
        match remaining with
        | 0 => ⟨.error (.retryError e), attempt, (body attempt).slept, 0⟩
        | r + 1 =>
          ⟨(tenacityLoop body (attempt + 1) r).result,
            (tenacityLoop body (attempt + 1) r).attempts,
            (body attempt).slept + (tenacityLoop body (attempt + 1) r).rateSleep,
            tenacityWait attempt + (tenacityLoop body (attempt + 1) r).backoffWait⟩
      else ⟨.error e, attempt, (body attempt).slept, 0⟩

/-- `_get` as a whole: its body run under the tenacity driver, first attempt
numbered 1, at most 5 attempts in total. -/
def pyGet (t : Nat → Response) : RunOut Json :=
  tenacityLoop (getBody t) 1 4

/-- `_put` as a whole: same driver, same budget. -/
def pyPut (t : Nat → Response) : RunOut Json :=
  tenacityLoop (putBody t) 1 4

/-- A URL-addressed transport: the response produced for a given URL and
attempt number. -/
abbrev Transport := String → Nat → Response

/-- `_get(s, url)` against a URL-addressed transport. -/
def pyGetUrl (t : Transport) (url : String) : RunOut Json :=
  pyGet (t url)

/-- The API base path. -/
def BASE : String := "https://api.meraki.com/api/v1"

/-- Python's `o.get("name") == name` where `name` is a `str`: true exactly
when the entry is a dict whose "name" value is that very string (a missing
key gives `None`, and `None == str` is `False`; a non-string value never
equals a `str`). -/
def nameMatches (kvs : List (String × Json)) (target : String) : Bool :=
  match dictGet kvs "name" with
  | some (.str s) => s = target
  | _ => false

/-- The `for o in items: if o.get("name") == target: return o["id"]` loop
shared by both resolvers.  A matching entry without an "id" key raises
`KeyError`; a non-dict element raises `AttributeError` at `o.get`; the
fall-through returns `None`. -/
def find_loop (items : List Json) (target : String) :
    Except PyErr (Option Json) :=
  match items with
  | [] => .ok none
  | .obj kvs :: rest =>
    if nameMatches kvs target then
      match dictGet kvs "id" with
      | some v => .ok (some v)
      | none => .error (.keyError "id")
    else find_loop rest target
  | _ :: _ => .error (.attributeError "object has no attribute get")

/-- The outcome of a `_get` call whose JSON body is then iterated:
propagate the executor's error, iterate an array, and fail with `TypeError`
on a non-iterable body. -/
def iterBody (run : RunOut Json)
    (k : List Json → Except PyErr (Option Json)) :
    Except PyErr (Option Json) :=
  match run.result with
  | .error e => .error e
  | .ok (.arr items) => k items
  | .ok _ => .error (.typeError "object is not iterable")

/-- `find_org_id_by_name(s, name)`: one `_get` of `BASE/organizations`, then
the first-match scan. -/
def find_org_id_by_name (t : Transport) (name : String) :
    Except PyErr (Option Json) :=
  iterBody (pyGetUrl t (BASE ++ "/organizations"))
    (fun items => find_loop items name)

/-- `find_network_id(s, org_id, net_name)`: one `_get` of
`BASE/organizations/{org_id}/networks` — the URL embeds exactly the given
organization id — then the same scan. -/
def find_network_id (t : Transport) (orgId : String) (netName : String) :
    Except PyErr (Option Json) :=
  iterBody (pyGetUrl t (BASE ++ "/organizations/" ++ orgId ++ "/networks"))
    (fun items => find_loop items netName)

/-- Python `len(...)` on a decoded JSON value: defined for lists, strings
and dicts, `TypeError` otherwise. -/
def pyLen : Json → Except PyErr Nat
  | .arr xs => .ok xs.length
  | .str s => .ok s.length
  | .obj kvs => .ok kvs.length
  | _ => .error (.typeError "object has no len")

/-- The list comprehension `[o.get("name") for o in data]` over a list:
every element must be a dict (otherwise `AttributeError`); each contributes
its "name" value or `None`. -/
def namesComp : List Json → Except PyErr (List (Option Json))
  | [] => .ok []
  | .obj kvs :: rest => (namesComp rest).map (dictGet kvs "name" :: ·)
  | _ :: _ => .error (.attributeError "object has no attribute get")

/-- What `sanity_list_orgs` produces when it completes: the two printed
values (the count in the first line, the first five names in the second)
and the function's Python return value, which is `None`. -/
structure SanityOut where
  printedCount : Nat
  printedNames : List (Option Json)
  ret : Json
deriving Repr

/-- `sanity_list_orgs(s)`: one `_get` of `BASE/organizations`; prints
`f"... fetched {len(data)} orgs"` and `[o.get("name") for o in data][:5]`;
returns `None`.  Executor errors propagate unchanged. -/
def sanity_list_orgs (t : Transport) : Except PyErr SanityOut :=
  match (pyGetUrl t (BASE ++ "/organizations")).result with
  | .error e => .error e
  | .ok data =>
    match pyLen data with
    | .error e => .error e
    | .ok n =>
      match data with
      | .arr items => (namesComp items).map (fun names => ⟨n, names.take 5, .null⟩)
      | .str s =>
        if s.isEmpty then .ok ⟨n, [], .null⟩
        else .error (.attributeError "object has no attribute get")
      | .obj kvs =>
        if kvs.isEmpty then .ok ⟨n, [], .null⟩
        else .error (.attributeError "object has no attribute get")
      | _ => .error (.typeError "object is not iterable")

/-- Whether an attempt failed with an `Exception`-class error, i.e. one the
tenacity driver will retry. -/
def isRetryFail {α : Type} (a : AttemptOut α) : Bool :=
  match a.result with
  | .error e => isException e
  | .ok _ => false

/-- The error of a failed attempt (junk on success). -/
def errOf {α : Type} (a : AttemptOut α) : PyErr :=
  match a.result with
  | .error e => e
  | .ok _ => .exc "no error"

/-- A well-formed remote entity: a JSON object carrying an "id" key. -/
def isEntity : Json → Bool
  | .obj kvs => (dictGet kvs "id").isSome
  | _ => false

/-- Whether a list element is a dict whose "name" field is exactly the
target string. -/
def entryMatches (target : String) : Json → Bool
  | .obj kvs => nameMatches kvs target
  | _ => false

/-- The first element of the list whose "name" field is exactly the target
string — the specification-side description of the resolvers' scan. -/
def firstMatch (items : List Json) (target : String) : Option Json :=
  items.find? (entryMatches target)

/-- The "id" field of a JSON object, if any. -/
def objId : Json → Option Json
  | .obj kvs => dictGet kvs "id"
  | _ => none

/-- A 401 response with a short body, as a transport that always returns
it. -/
def resp401 : Response := ⟨401, none, "Invalid API key supplied".toList, .null⟩

/-- A 500 response. -/
def resp500 : Response := ⟨500, none, "boom".toList, .null⟩

/-- A 200 response carrying a two-organization list. -/
def respOk : Response :=
  ⟨200, none, [],
    .arr [.obj [("id", .str "1"), ("name", .str "A")],
          .obj [("id", .str "2"), ("name", .str "B")]]⟩

/-- A 429 response without a `Retry-After` header. -/
def resp429none : Response := ⟨429, none, [], .null⟩

/-- A 429 response with `Retry-After: 2`. -/
def resp429two : Response := ⟨429, some "2".toList, [], .null⟩

/-- A 429 response whose `Retry-After` header is not numeric. -/
def resp429bad : Response := ⟨429, some "soon".toList, [], .null⟩

/-- Transport answering 401 on every attempt. -/
def trans401 : Nat → Response := fun _ => resp401

/-- Transport answering 500 on every attempt. -/
def trans500 : Nat → Response := fun _ => resp500

/-- Transport answering 429 with an invalid `Retry-After` first, then 200. -/
def transBadRetryAfter : Nat → Response :=
  fun i => if i = 1 then resp429bad else respOk

/-- URL-addressed transport answering the two-organization list
everywhere. -/
def transOrgsOk : Transport := fun _ _ => respOk

/-- URL-addressed transport answering 401 everywhere. -/
def transUrl401 : Transport := fun _ _ => resp401

/-- A 200 response whose list's first entry has no "name" field. -/
def respNoName : Response :=
  ⟨200, none, [],
    .arr [.obj [("id", .str "1")],
          .obj [("id", .str "2"), ("name", .str "B")]]⟩

/-- URL-addressed transport answering the no-name-first list everywhere. -/
def transNoName : Transport := fun _ _ => respNoName

/-- A successful attempt ends the run at the current attempt number. -/
theorem tenacityLoop_ok {α : Type} (body : Nat → AttemptOut α)
    (attempt remaining : Nat) (v : α) (h : (body attempt).result = .ok v) :
    tenacityLoop body attempt remaining =
      ⟨.ok v, attempt, (body attempt).slept, 0⟩ := by
  unfold tenacityLoop
  rw [h]

/-- A `BaseException`-only failure (tenacity's default predicate does not
retry it) ends the run at the current attempt, surfacing the error
itself. -/
theorem tenacityLoop_fatal {α : Type} (body : Nat → AttemptOut α)
    (attempt remaining : Nat) (e : PyErr)
    (h : (body attempt).result = .error e) (hf : isException e = false) :
    tenacityLoop body attempt remaining =
      ⟨.error e, attempt, (body attempt).slept, 0⟩ := by
  unfold tenacityLoop
  rw [h]
  simp [hf]

/-- An `Exception`-class failure with no attempts left raises a `RetryError`
wrapping it. -/
theorem tenacityLoop_stop {α : Type} (body : Nat → AttemptOut α)
    (attempt : Nat) (e : PyErr)
    (h : (body attempt).result = .error e) (he : isException e = true) :
    tenacityLoop body attempt 0 =
      ⟨.error (.retryError e), attempt, (body attempt).slept, 0⟩ := by
  unfold tenacityLoop
  rw [h]
  simp [he]

/-- An `Exception`-class failure with attempts left defers to the next
attempt, adding the backoff wait. -/
theorem tenacityLoop_retry {α : Type} (body : Nat → AttemptOut α)
    (attempt r : Nat) (e : PyErr)
    (h : (body attempt).result = .error e) (he : isException e = true) :
    tenacityLoop body attempt (r + 1) =
      ⟨(tenacityLoop body (attempt + 1) r).result,
        (tenacityLoop body (attempt + 1) r).attempts,
        (body attempt).slept + (tenacityLoop body (attempt + 1) r).rateSleep,
        tenacityWait attempt + (tenacityLoop body (attempt + 1) r).backoffWait⟩ := by
  conv_lhs => unfold tenacityLoop
  rw [h]
  simp [he]

/-- A retryable failure decomposes: the attempt really did fail with an
`Exception`-class error equal to `errOf`. -/
theorem isRetryFail_elim {α : Type} (a : AttemptOut α)
    (h : isRetryFail a = true) :
    a.result = .error (errOf a) ∧ isException (errOf a) = true := by
  unfold isRetryFail at h
  unfold errOf
  cases ha : a.result with
  | ok v => rw [ha] at h; exact absurd h (by simp)
  | error e => rw [ha] at h; exact ⟨rfl, h⟩

/-- If all five attempts fail with `Exception`-class errors, the driver makes
exactly five attempts and raises a `RetryError` wrapping the error of the
fifth (last) attempt. -/
theorem tenacityLoop_exhaust {α : Type} (body : Nat → AttemptOut α)
    (h : ∀ i ∈ Finset.Icc 1 5, isRetryFail (body i) = true) :
    (tenacityLoop body 1 4).attempts = 5 ∧
      (tenacityLoop body 1 4).result = .error (.retryError (errOf (body 5))) := by
  obtain ⟨h1, he1⟩ := isRetryFail_elim _ (h 1 (by decide))
  obtain ⟨h2, he2⟩ := isRetryFail_elim _ (h 2 (by decide))
  obtain ⟨h3, he3⟩ := isRetryFail_elim _ (h 3 (by decide))
  obtain ⟨h4, he4⟩ := isRetryFail_elim _ (h 4 (by decide))
  obtain ⟨h5, he5⟩ := isRetryFail_elim _ (h 5 (by decide))
  rw [tenacityLoop_retry body 1 3 _ h1 he1]
  rw [tenacityLoop_retry body 2 2 _ h2 he2]
  rw [tenacityLoop_retry body 3 1 _ h3 he3]
  rw [tenacityLoop_retry body 4 0 _ h4 he4]
  rw [tenacityLoop_stop body 5 _ h5 he5]
  exact ⟨rfl, rfl⟩

/-- On a 401 response, `_get`'s body raises `SystemExit` with the checklist
text and the first 400 characters of the body, sleeping nothing. -/
theorem getBody_401 (t : Nat → Response) (i : Nat)
    (h : (t i).status = 401) :
    getBody t i =
      ⟨.error (.systemExit (authChecklist ++ (t i).text.take 400)), 0⟩ := by
  unfold getBody
  simp [h]

/-- On a 401 response, `_put`'s body raises a plain `HTTPError 401` via
`raise_for_status` — there is no `SystemExit` branch in `_put`. -/
theorem putBody_401 (t : Nat → Response) (i : Nat)
    (h : (t i).status = 401) :
    putBody t i = ⟨.error (.httpError 401), 0⟩ := by
  unfold putBody
  simp [h]

/-- On a 429 response, `_get`'s body defers to `rate_limit_sleep` and raises
`Exception("429 rate limited")` if the sleep succeeded. -/
theorem getBody_429 (t : Nat → Response) (i : Nat)
    (h : (t i).status = 429) :
    getBody t i =
      (match rate_limit_sleep (t i) with
       | .error e => ⟨.error e, 0⟩
       | .ok n => ⟨.error (.exc "429 rate limited"), n⟩) := by
  unfold getBody
  simp [h]

/-- Every error `rate_limit_sleep` can raise is an `Exception`
(a `ValueError`), hence retryable. -/
theorem rate_limit_sleep_err (r : Response) (e : PyErr)
    (h : rate_limit_sleep r = .error e) : isException e = true := by
  unfold rate_limit_sleep at h
  split at h
  · split at h
    · cases h; rfl
    · split at h
      · cases h; rfl
      · cases h
  · cases h

/-- Claim C1 counterexample: for `_put`, an all-401 transport does NOT stop
at the first attempt — all 5 attempts are made and the failure surfaced is a
`RetryError` wrapping a generic `HTTPError`, not an authentication-failure
signal.  So the claim that BOTH operations transition to Fatal on 401 with
no retry is false. -/
theorem put_401_retried_cex :
    (pyPut trans401).attempts = 5 ∧ (5 : Nat) ≠ 1 ∧
    (pyPut trans401).result = .error (.retryError (.httpError 401)) ∧
    (∀ m : PyStr, PyErr.retryError (.httpError 401) ≠ .systemExit m) :=
  ⟨rfl, by decide, rfl, fun _ h => PyErr.noConfusion h⟩

/-- Claim C1 (amended): only `_get` treats HTTP 401 as fatal — a 401 on its
first attempt raises the authentication `SystemExit` immediately with no
retry.  `_put` has no 401 branch: a transport answering 401 on all attempts
drives it through all 5 attempts, and the failure is a `RetryError` wrapping
a generic `HTTPError 401`. -/
theorem auth_fatal_only_in_get :
    (∀ t : Nat → Response, (t 1).status = 401 →
      (pyGet t).attempts = 1 ∧
      (pyGet t).result =
        .error (.systemExit (authChecklist ++ (t 1).text.take 400))) ∧
    (∀ t : Nat → Response, (∀ i ∈ Finset.Icc 1 5, (t i).status = 401) →
      (pyPut t).attempts = 5 ∧
      (pyPut t).result = .error (.retryError (.httpError 401))) := by
  constructor
  · intro t h
    have hb : (getBody t 1).result =
        .error (.systemExit (authChecklist ++ (t 1).text.take 400)) := by
      rw [getBody_401 t 1 h]
    have hr := tenacityLoop_fatal (getBody t) 1 4 _ hb rfl
    unfold pyGet
    rw [hr]
    exact ⟨rfl, rfl⟩
  · intro t h
    have hfail : ∀ i ∈ Finset.Icc 1 5, isRetryFail (putBody t i) = true := by
      intro i hi
      rw [putBody_401 t i (h i hi)]
      rfl
    have hmain := tenacityLoop_exhaust (putBody t) hfail
    have h5 : errOf (putBody t 5) = .httpError 401 := by
      rw [putBody_401 t 5 (h 5 (by decide))]
      rfl
    rw [h5] at hmain
    exact hmain

/-- Claim C1 witness: the amended theorem applied to concrete all-401
transports. -/
theorem auth_fatal_only_in_get_witness :
    (pyGet trans401).attempts = 1 ∧ (pyPut trans401).attempts = 5 :=
  ⟨(auth_fatal_only_in_get.1 trans401 rfl).1,
   (auth_fatal_only_in_get.2 trans401 (by decide)).1⟩

/-- Claim C2: a 401 response on the first attempt makes `_get` raise the
authentication `SystemExit` immediately — exactly one attempt, zero retries —
and the message is the fixed guidance text followed by at most 400
characters of the response body. -/
theorem get_401_fatal_first_attempt (t : Nat → Response)
    (h : (t 1).status = 401) :
    (pyGet t).attempts = 1 ∧
    (pyGet t).result =
      .error (.systemExit (authChecklist ++ (t 1).text.take 400)) ∧
    (authChecklist ++ (t 1).text.take 400).length ≤
      authChecklist.length + 400 := by
  have hb : (getBody t 1).result =
      .error (.systemExit (authChecklist ++ (t 1).text.take 400)) := by
    rw [getBody_401 t 1 h]
  have hr := tenacityLoop_fatal (getBody t) 1 4 _ hb rfl
  unfold pyGet
  rw [hr]
  refine ⟨rfl, rfl, ?_⟩
  simp only [List.length_append, List.length_take]
  omega

/-- Claim C2 witness: the theorem applied to the concrete all-401
transport. -/
theorem get_401_fatal_first_attempt_witness :
    (pyGet trans401).attempts = 1 ∧
    (pyGet trans401).result =
      .error (.systemExit (authChecklist ++ (trans401 1).text.take 400)) ∧
    (authChecklist ++ (trans401 1).text.take 400).length ≤
      authChecklist.length + 400 :=
  get_401_fatal_first_attempt trans401 rfl

/-- Claim C3 counterexample: with a transport answering 500 on every
attempt, `_get` exhausts its 5 attempts and what reaches the caller is a
`RetryError` wrapping the last `HTTPError 500` — a different, wrapping
exception, not the last encountered error itself. -/
theorem exhausted_error_wrapped_cex :
    (pyGet trans500).attempts = 5 ∧
    (pyGet trans500).result = .error (.retryError (.httpError 500)) ∧
    PyErr.retryError (.httpError 500) ≠ PyErr.httpError 500 :=
  ⟨rfl, rfl, by decide⟩

/-- Claim C3 (amended): when all 5 attempts of `_get` or `_put` fail with
retryable (`Exception`-class) errors, the operation fails permanently —
nothing is swallowed — but the exception surfaced to the caller is a
tenacity `RetryError` that wraps the last encountered error (preserved
unmodified inside the wrapper), not the last error itself. -/
theorem exhausted_retries_raise_retry_error :
    (∀ t : Nat → Response,
      (∀ i ∈ Finset.Icc 1 5, isRetryFail (getBody t i) = true) →
      (pyGet t).attempts = 5 ∧
        (pyGet t).result = .error (.retryError (errOf (getBody t 5)))) ∧
    (∀ t : Nat → Response,
      (∀ i ∈ Finset.Icc 1 5, isRetryFail (putBody t i) = true) →
      (pyPut t).attempts = 5 ∧
        (pyPut t).result = .error (.retryError (errOf (putBody t 5)))) :=
  ⟨fun t h => tenacityLoop_exhaust (getBody t) h,
   fun t h => tenacityLoop_exhaust (putBody t) h⟩

/-- Claim C3 witness: the amended theorem applied to the concrete all-500
transport. -/
theorem exhausted_retries_raise_retry_error_witness :
    (pyGet trans500).attempts = 5 ∧
    (pyGet trans500).result =
      .error (.retryError (errOf (getBody trans500 5))) :=
  exhausted_retries_raise_retry_error.1 trans500 (by decide)

/-- Claim C4 counterexample: a 429 response whose `Retry-After` header is
the non-numeric "soon" does NOT produce the default 1-second wait — `int()`
raises `ValueError`, nothing is slept, and the attempt's failure is a
`ValueError`, a different failure mode than the rate-limit retry path. -/
theorem invalid_retry_after_cex :
    (transBadRetryAfter 1).status = 429 ∧
    (transBadRetryAfter 1).retryAfter = some "soon".toList ∧
    pyInt? "soon".toList = none ∧
    (getBody transBadRetryAfter 1).slept = 0 ∧ (0 : Nat) ≠ 1 ∧
    (getBody transBadRetryAfter 1).result =
      .error (.valueError "invalid literal for int() with base 10") ∧
    PyErr.valueError "invalid literal for int() with base 10" ≠
      PyErr.exc "429 rate limited" :=
  ⟨rfl, rfl, rfl, rfl, by decide, rfl, by decide⟩

/-- Claim C4 (amended): on a 429 response `_get` reads `Retry-After`,
defaulting to 1 second only when the header is ABSENT; a present, valid,
non-negative integer value is slept in full before the retryable 429 error
is raised; a present but non-numeric value raises `ValueError` from `int()`
— no sleep, and a different error than the rate-limit one — though every
429 attempt still fails with an `Exception`-class error, so the generic
backoff retries it either way. -/
theorem rate_limit_retry_after_handling (t : Nat → Response) (i : Nat)
    (h : (t i).status = 429) :
    ((t i).retryAfter = none →
      (getBody t i).slept = 1 ∧
      (getBody t i).result = .error (.exc "429 rate limited")) ∧
    (∀ (v : PyStr) (n : Int),
      (t i).retryAfter = some v → pyInt? v = some n → 0 ≤ n →
      (getBody t i).slept = n.toNat ∧
      (getBody t i).result = .error (.exc "429 rate limited")) ∧
    (∀ v : PyStr, (t i).retryAfter = some v → pyInt? v = none →
      (getBody t i).slept = 0 ∧
      (getBody t i).result =
        .error (.valueError "invalid literal for int() with base 10")) ∧
    isRetryFail (getBody t i) = true := by
  have hb := getBody_429 t i h
  refine ⟨?_, ?_, ?_, ?_⟩
  · intro hra
    have hr : rate_limit_sleep (t i) = .ok 1 := by
      unfold rate_limit_sleep
      rw [h, hra]
      rfl
    rw [hb, hr]
    exact ⟨rfl, rfl⟩
  · intro v n hra hn hnn
    have hr : rate_limit_sleep (t i) = .ok n.toNat := by
      unfold rate_limit_sleep
      rw [h, hra]
      simp only [Option.getD_some, hn, if_pos, if_neg (not_lt.mpr hnn)]
    rw [hb, hr]
    exact ⟨rfl, rfl⟩
  · intro v hra hn
    have hr : rate_limit_sleep (t i) =
        .error (.valueError "invalid literal for int() with base 10") := by
      unfold rate_limit_sleep
      rw [h, hra]
      simp only [Option.getD_some, hn, if_pos trivial]
    rw [hb, hr]
    exact ⟨rfl, rfl⟩
  · rw [hb]
    cases hr : rate_limit_sleep (t i) with
    | ok n => rfl
    | error e =>
      have := rate_limit_sleep_err (t i) e hr
      unfold isRetryFail
      simpa using this

/-- Claim C4 witness: the amended theorem applied to concrete 429
responses — absent header sleeps 1 second, `Retry-After: 2` sleeps 2. -/
theorem rate_limit_retry_after_handling_witness :
    (getBody (fun _ => resp429none) 1).slept = 1 ∧
    (getBody (fun _ => resp429two) 1).slept = 2 :=
  ⟨((rate_limit_retry_after_handling (fun _ => resp429none) 1 rfl).1 rfl).1,
   ((rate_limit_retry_after_handling (fun _ => resp429two) 1 rfl).2.1
      "2".toList 2 rfl rfl (by decide)).1⟩

/-- Over a list of well-formed entities (dicts with an "id" key), the
resolvers' scan loop returns exactly the "id" of the first name match, and
`none` when no entry matches. -/
theorem find_loop_eq_firstMatch (items : List Json) (target : String)
    (h : items.all isEntity = true) :
    find_loop items target = .ok ((firstMatch items target).bind objId) := by
  induction items with
  | nil => rfl
  | cons o rest ih =>
    rw [List.all_cons, Bool.and_eq_true] at h
    obtain ⟨ho, hrest⟩ := h
    cases o with
    | obj kvs =>
      by_cases hm : nameMatches kvs target
      · obtain ⟨v, hv⟩ := Option.isSome_iff_exists.mp ho
        unfold find_loop firstMatch
        rw [List.find?_cons_of_pos _
          (show entryMatches target (Json.obj kvs) = true from hm)]
        simp [hm, hv, objId]
      · unfold find_loop firstMatch
        rw [List.find?_cons_of_neg _
          (show ¬ entryMatches target (Json.obj kvs) = true from hm)]
        simp only [hm, if_false]
        exact ih hrest
    | null => exact absurd ho (by simp [isEntity])
    | bool b => exact absurd ho (by simp [isEntity])
    | num n => exact absurd ho (by simp [isEntity])
    | str s => exact absurd ho (by simp [isEntity])
    | arr xs => exact absurd ho (by simp [isEntity])

/-- Claim C5: over any returned entity list, `find_org_id_by_name` yields
the "id" of the first entry whose "name" equals the target exactly
(string equality is case-sensitive) and `None` when no entry matches —
in particular on the empty list; `find_network_id` satisfies the same
contract, with its URL built from exactly the given organization id. -/
theorem resolver_first_match_contract :
    (∀ (t : Transport) (name : String) (items : List Json),
      (pyGetUrl t (BASE ++ "/organizations")).result = .ok (.arr items) →
      items.all isEntity = true →
      find_org_id_by_name t name = .ok ((firstMatch items name).bind objId)) ∧
    (∀ (t : Transport) (orgId name : String) (items : List Json),
      (pyGetUrl t (BASE ++ "/organizations/" ++ orgId ++ "/networks")).result
        = .ok (.arr items) →
      items.all isEntity = true →
      find_network_id t orgId name = .ok ((firstMatch items name).bind objId)) ∧
    (∀ (target : String) (items : List Json),
      (∀ o ∈ items, entryMatches target o = false) →
      (firstMatch items target).bind objId = none) ∧
    (∀ target : String, (firstMatch [] target).bind objId = none) := by
  refine ⟨?_, ?_, ?_, fun _ => rfl⟩
  · intro t name items hrun hwf
    unfold find_org_id_by_name iterBody
    rw [hrun]
    exact find_loop_eq_firstMatch items name hwf
  · intro t orgId name items hrun hwf
    unfold find_network_id iterBody
    rw [hrun]
    exact find_loop_eq_firstMatch items name hwf
  · intro target items hnone
    unfold firstMatch
    rw [List.find?_eq_none.mpr (fun o hmem => by simp [hnone o hmem])]
    rfl

/-- Claim C5 witness: the theorem applied to the concrete two-organization
transport, target "B". -/
theorem resolver_first_match_contract_witness :
    find_org_id_by_name transOrgsOk "B" =
      .ok ((firstMatch [.obj [("id", .str "1"), ("name", .str "A")],
                        .obj [("id", .str "2"), ("name", .str "B")]] "B").bind
            objId) :=
  resolver_first_match_contract.1 transOrgsOk "B" _ rfl rfl

/-- Claim C10: an entry without a "name" field never fails the scan —
`o.get("name")` yields `None`, which equals no target string, so the entry
is skipped and the loop continues; lifted to both resolvers. -/
theorem missing_name_skipped :
    (∀ (kvs : List (String × Json)) (rest : List Json) (target : String),
      dictGet kvs "name" = none →
      find_loop (.obj kvs :: rest) target = find_loop rest target) ∧
    (∀ (t : Transport) (name : String) (kvs : List (String × Json))
        (rest : List Json),
      (pyGetUrl t (BASE ++ "/organizations")).result
        = .ok (.arr (.obj kvs :: rest)) →
      dictGet kvs "name" = none →
      find_org_id_by_name t name = find_loop rest name) ∧
    (∀ (t : Transport) (orgId name : String) (kvs : List (String × Json))
        (rest : List Json),
      (pyGetUrl t (BASE ++ "/organizations/" ++ orgId ++ "/networks")).result
        = .ok (.arr (.obj kvs :: rest)) →
      dictGet kvs "name" = none →
      find_network_id t orgId name = find_loop rest name) := by
  have hskip : ∀ (kvs : List (String × Json)) (rest : List Json)
      (target : String), dictGet kvs "name" = none →
      find_loop (.obj kvs :: rest) target = find_loop rest target := by
    intro kvs rest target h
    have hm : nameMatches kvs target = false := by
      unfold nameMatches
      rw [h]
    conv_lhs => unfold find_loop
    rw [hm]
    simp
  refine ⟨hskip, ?_, ?_⟩
  · intro t name kvs rest hrun h
    unfold find_org_id_by_name iterBody
    rw [hrun]
    exact hskip kvs rest name h
  · intro t orgId name kvs rest hrun h
    unfold find_network_id iterBody
    rw [hrun]
    exact hskip kvs rest name h

/-- Claim C10 witness: the theorem applied to the concrete transport whose
first entry lacks a "name" field; the scan continues past it. -/
theorem missing_name_skipped_witness :
    find_org_id_by_name transNoName "B" =
      find_loop [.obj [("id", .str "2"), ("name", .str "B")]] "B" :=
  missing_name_skipped.2.1 transNoName "B" [("id", .str "1")]
    [.obj [("id", .str "2"), ("name", .str "B")]] rfl rfl

/-- Claim C6 counterexample: at length exactly 6 — which satisfies the
claim's "length ≥ 6" — `_mask` fully masks the input, so the first 3
characters are NOT preserved. -/
theorem mask_length_six_cex :
    "abcdef".toList.length = 6 ∧ 6 ≤ "abcdef".toList.length ∧
    _mask "abcdef".toList = "******".toList ∧
    "******".toList.take 3 ≠ "abcdef".toList.take 3 :=
  ⟨rfl, by decide, rfl, by decide⟩

/-- Claim C6 (amended): for credentials of length ≥ 7 (strictly more
than 6), `_mask` preserves the length, the first 3 and the last 3
characters, and every position in between is the mask character; at
length ≤ 6 the whole string is masked. -/
theorem mask_preserves_ends_from_seven :
    (∀ k : PyStr, 7 ≤ k.length →
      (_mask k).length = k.length ∧
      (_mask k).take 3 = k.take 3 ∧
      (_mask k).drop (k.length - 3) = k.drop (k.length - 3) ∧
      (∀ i : Nat, 3 ≤ i → i < k.length - 3 → (_mask k)[i]? = some '*')) ∧
    (∀ k : PyStr, k.length ≤ 6 → _mask k = List.replicate k.length '*') := by
  constructor
  · intro k h
    have hk : k ≠ [] := by
      intro e
      rw [e] at h
      simp at h
    have h6 : ¬ k.length ≤ 6 := by omega
    have hA : (k.take 3).length = 3 := by
      rw [List.length_take]
      omega
    have hM : (List.replicate (k.length - 6) '*').length = k.length - 6 :=
      List.length_replicate _ _
    have hmask : _mask k =
        k.take 3 ++ List.replicate (k.length - 6) '*' ++ k.drop (k.length - 3) := by
      unfold _mask
      rw [if_neg hk, if_neg h6]
    have hAM : (k.take 3 ++ List.replicate (k.length - 6) '*').length
        = k.length - 3 := by
      rw [List.length_append, hA, hM]
      omega
    refine ⟨?_, ?_, ?_, ?_⟩
    · rw [hmask, List.length_append, hAM, List.length_drop]
      omega
    · have htake := List.take_left (k.take 3)
        (List.replicate (k.length - 6) '*' ++ k.drop (k.length - 3))
      rw [hA] at htake
      rw [hmask, List.append_assoc]
      exact htake
    · have hdrop := List.drop_left
        (k.take 3 ++ List.replicate (k.length - 6) '*') (k.drop (k.length - 3))
      rw [hAM] at hdrop
      rw [hmask]
      exact hdrop
    · intro i h3 hlt
      rw [hmask, List.getElem?_append, if_pos (by omega),
        List.getElem?_append_right (by omega), hA, List.getElem?_replicate,
        if_pos (by omega)]
  · intro k h
    unfold _mask
    by_cases hk : k = []
    · rw [if_pos hk, hk]
      rfl
    · rw [if_neg hk, if_pos h]

/-- Claim C6 witness: the amended theorem applied to the 7-character
credential "abcdefg". -/
theorem mask_preserves_ends_from_seven_witness :
    7 ≤ "abcdefg".toList.length ∧
    (_mask "abcdefg".toList).length = "abcdefg".toList.length ∧
    (_mask "abcdefg".toList).take 3 = "abcdefg".toList.take 3 ∧
    (_mask "abcdefg".toList)[3]? = some '*' ∧
    _mask "abcde".toList = List.replicate "abcde".toList.length '*' :=
  ⟨by decide,
   (mask_preserves_ends_from_seven.1 "abcdefg".toList (by decide)).1,
   (mask_preserves_ends_from_seven.1 "abcdefg".toList (by decide)).2.1,
   (mask_preserves_ends_from_seven.1 "abcdefg".toList (by decide)).2.2.2 3
     (by decide) (by decide),
   mask_preserves_ends_from_seven.2 "abcde".toList (by decide)⟩

/-- The head of `dropWhile p` never satisfies `p`. -/
theorem dropWhile_head_false (p : Char → Bool) (l : PyStr) (c : Char)
    (h : (l.dropWhile p).head? = some c) : p c = false := by
  induction l with
  | nil => simp [List.dropWhile] at h
  | cons a t ih =>
    rw [List.dropWhile_cons] at h
    cases hpa : p a with
    | true =>
      rw [if_pos hpa] at h
      exact ih h
    | false =>
      rw [if_neg (by simp [hpa])] at h
      simp only [List.head?_cons, Option.some.injEq] at h
      rw [← h]
      exact hpa

/-- Trailing-strip splits the list: what was removed is a run of characters
satisfying `p`. -/
theorem rstrip_decomp (p : Char → Bool) (l : PyStr) :
    rstripWhile p l ++ (l.reverse.takeWhile p).reverse = l := by
  unfold rstripWhile
  rw [← List.reverse_append, List.takeWhile_append_dropWhile, List.reverse_reverse]

/-- The last element of a trailing-strip never satisfies `p`. -/
theorem rstrip_getLast_false (p : Char → Bool) (l : PyStr) (c : Char)
    (h : (rstripWhile p l).getLast? = some c) : p c = false := by
  unfold rstripWhile at h
  rw [List.getLast?_reverse] at h
  exact dropWhile_head_false p l.reverse c h

/-- Trailing-strip keeps the head of the list. -/
theorem rstrip_head (p : Char → Bool) (l : PyStr) (c : Char)
    (h : (rstripWhile p l).head? = some c) : l.head? = some c := by
  have hd := rstrip_decomp p l
  rw [← hd]
  cases hr : rstripWhile p l with
  | nil => rw [hr] at h; exact absurd h (by simp)
  | cons a t =>
    rw [hr] at h
    simp only [List.head?_cons, Option.some.injEq] at h
    simp [h]

/-- Both-ends strip splits the list into a stripped-prefix run, the result,
and a stripped-suffix run. -/
theorem pyStrip_decomp (p : Char → Bool) (l : PyStr) :
    ∃ pre suf : PyStr, pre ++ pyStrip p l ++ suf = l ∧
      (∀ c ∈ pre, p c = true) ∧ (∀ c ∈ suf, p c = true) := by
  refine ⟨l.takeWhile p, ((l.dropWhile p).reverse.takeWhile p).reverse,
    ?_, ?_, ?_⟩
  · unfold pyStrip
    rw [List.append_assoc, rstrip_decomp p (l.dropWhile p),
      List.takeWhile_append_dropWhile]
  · intro c hc
    exact List.mem_takeWhile_imp hc
  · intro c hc
    exact List.mem_takeWhile_imp (List.mem_reverse.mp hc)

/-- Every character of a both-ends strip occurs in the original list. -/
theorem mem_pyStrip (p : Char → Bool) (l : PyStr) (c : Char)
    (h : c ∈ pyStrip p l) : c ∈ l := by
  obtain ⟨pre, suf, heq, -, -⟩ := pyStrip_decomp p l
  rw [← heq]
  simp [h]

/-- The head of a both-ends strip never satisfies `p`. -/
theorem pyStrip_head_false (p : Char → Bool) (l : PyStr) (c : Char)
    (h : (pyStrip p l).head? = some c) : p c = false := by
  unfold pyStrip at h
  exact dropWhile_head_false p l c (rstrip_head p (l.dropWhile p) c h)

/-- The last element of a both-ends strip never satisfies `p`. -/
theorem pyStrip_getLast_false (p : Char → Bool) (l : PyStr) (c : Char)
    (h : (pyStrip p l).getLast? = some c) : p c = false := by
  unfold pyStrip at h
  exact rstrip_getLast_false p (l.dropWhile p) c h

/-- Stripping characters none of which occur does nothing: leading half. -/
theorem dropWhile_all_false (p : Char → Bool) (l : PyStr)
    (h : ∀ c ∈ l, p c = false) : l.dropWhile p = l := by
  cases l with
  | nil => rfl
  | cons a t =>
    rw [List.dropWhile_cons, if_neg (by simp [h a (List.mem_cons_self a t)])]

/-- Stripping characters none of which occur does nothing. -/
theorem pyStrip_all_false (p : Char → Bool) (l : PyStr)
    (h : ∀ c ∈ l, p c = false) : pyStrip p l = l := by
  unfold pyStrip rstripWhile
  rw [dropWhile_all_false p l h,
    dropWhile_all_false p l.reverse (fun c hc => h c (List.mem_reverse.mp hc)),
    List.reverse_reverse]

/-- Nested sandwich decompositions compose. -/
theorem sandwich_trans {a b c : PyStr}
    (h1 : ∃ pre suf : PyStr, pre ++ b ++ suf = a)
    (h2 : ∃ pre suf : PyStr, pre ++ c ++ suf = b) :
    ∃ pre suf : PyStr, pre ++ c ++ suf = a := by
  obtain ⟨p1, s1, e1⟩ := h1
  obtain ⟨p2, s2, e2⟩ := h2
  refine ⟨p1 ++ p2, s2 ++ s1, ?_⟩
  rw [← e1, ← e2]
  simp [List.append_assoc]

/-- Claim C7 counterexample: an input wrapped in TWO layers of double
quotes loses both layers — `_clean_key` strips all surrounding quote
characters, not a single layer, so the inner layer is not kept. -/
theorem clean_key_double_layer_cex :
    _clean_key (some ("\"\"ab\"\"".toList)) = "ab".toList ∧
    "ab".toList ≠ "\"ab\"".toList :=
  ⟨rfl, by decide⟩

/-- Claim C7 (amended): `_clean_key` returns the empty string for absent
input and never fails; it removes leading/trailing whitespace and then ALL
(not just one layer of) surrounding double-quote characters and then all
surrounding single-quote characters.  Consequently the result is a
contiguous segment of the input, it never starts or ends with a single
quote, and on quote-free inputs it is exactly the whitespace-trimmed input,
with no whitespace at either end. -/
theorem clean_key_strip_properties :
    (_clean_key none = []) ∧
    (∀ v : PyStr, ∃ pre suf : PyStr, pre ++ _clean_key (some v) ++ suf = v) ∧
    (∀ (v : PyStr) (c : Char),
      (_clean_key (some v)).head? = some c → c ≠ '\'') ∧
    (∀ (v : PyStr) (c : Char),
      (_clean_key (some v)).getLast? = some c → c ≠ '\'') ∧
    (∀ v : PyStr, (∀ c ∈ v, c ≠ '"' ∧ c ≠ '\'') →
      _clean_key (some v) = pyStrip pyIsSpace v ∧
      (∀ c : Char, (_clean_key (some v)).head? = some c →
        pyIsSpace c = false) ∧
      (∀ c : Char, (_clean_key (some v)).getLast? = some c →
        pyIsSpace c = false)) := by
  have hck : ∀ v : PyStr, _clean_key (some v) =
      pyStrip isSQuote (pyStrip isDQuote (pyStrip pyIsSpace v)) := by
    intro v
    rfl
  refine ⟨rfl, ?_, ?_, ?_, ?_⟩
  · intro v
    have d1 := pyStrip_decomp pyIsSpace v
    have d2 := pyStrip_decomp isDQuote (pyStrip pyIsSpace v)
    have d3 := pyStrip_decomp isSQuote
      (pyStrip isDQuote (pyStrip pyIsSpace v))
    rw [hck v]
    exact sandwich_trans
      (sandwich_trans ⟨d1.choose, d1.choose_spec.choose, d1.choose_spec.choose_spec.1⟩
        ⟨d2.choose, d2.choose_spec.choose, d2.choose_spec.choose_spec.1⟩)
      ⟨d3.choose, d3.choose_spec.choose, d3.choose_spec.choose_spec.1⟩
  · intro v c h
    rw [hck v] at h
    have := pyStrip_head_false isSQuote _ c h
    unfold isSQuote at this
    exact of_decide_eq_false this
  · intro v c h
    rw [hck v] at h
    have := pyStrip_getLast_false isSQuote _ c h
    unfold isSQuote at this
    exact of_decide_eq_false this
  · intro v hq
    have hmem : ∀ c ∈ pyStrip pyIsSpace v, c ∈ v :=
      fun c hc => mem_pyStrip pyIsSpace v c hc
    have h1 : pyStrip isDQuote (pyStrip pyIsSpace v) = pyStrip pyIsSpace v :=
      pyStrip_all_false _ _ (fun c hc =>
        decide_eq_false (hq c (hmem c hc)).1)
    have h2 : pyStrip isSQuote (pyStrip pyIsSpace v) = pyStrip pyIsSpace v :=
      pyStrip_all_false _ _ (fun c hc =>
        decide_eq_false (hq c (hmem c hc)).2)
    have heq : _clean_key (some v) = pyStrip pyIsSpace v := by
      rw [hck v, h1, h2]
    refine ⟨heq, ?_, ?_⟩
    · intro c h
      rw [heq] at h
      exact pyStrip_head_false pyIsSpace v c h
    · intro c h
      rw [heq] at h
      exact pyStrip_getLast_false pyIsSpace v c h

/-- Claim C7 witness: the amended theorem applied to concrete inputs —
`'ab'` is stripped to `ab`, whose ends are not quotes, and the quote-free
`" z "` is trimmed to `z`. -/
theorem clean_key_strip_properties_witness :
    _clean_key none = [] ∧
    ('a' ≠ '\'') ∧ ('b' ≠ '\'') ∧
    _clean_key (some (" z ".toList)) = pyStrip pyIsSpace " z ".toList ∧
    pyIsSpace 'z' = false :=
  ⟨clean_key_strip_properties.1,
   clean_key_strip_properties.2.2.1 ("'ab'".toList) 'a' rfl,
   clean_key_strip_properties.2.2.2.1 ("'ab'".toList) 'b' rfl,
   (clean_key_strip_properties.2.2.2.2 (" z ".toList) (by decide)).1,
   (clean_key_strip_properties.2.2.2.2 (" z ".toList) (by decide)).2.1 'z' rfl⟩

/-- Claim C8: for any raw candidate, the validity check rejects the
normalized value when it is empty, or case-insensitively equal to a
placeholder, or shorter than 20 characters after normalization — in
particular every candidate of normalized length < 20 is rejected. -/
theorem validate_rejects_invalid (raw : Option PyStr) :
    (_clean_key raw = [] → validate (_clean_key raw) = false) ∧
    (pyLower (_clean_key raw) = pyLower ("your_api_key_here".toList) ∨
      pyLower (_clean_key raw) = pyLower ("placeholder".toList) →
      validate (_clean_key raw) = false) ∧
    ((_clean_key raw).length < 20 → validate (_clean_key raw) = false) := by
  refine ⟨?_, ?_, ?_⟩
  · intro h
    unfold validate
    rw [h]
    rfl
  · intro h
    unfold validate
    rcases h with h | h
    · have hy : pyLower (_clean_key raw) = "your_api_key_here".toList := by
        rw [h]
        rfl
      simp [hy]
    · have hp : pyLower (_clean_key raw) = "placeholder".toList := by
        rw [h]
        rfl
      simp [hp]
  · intro h
    unfold validate
    simp [h]

/-- Claim C8 witness: the theorem applied to the quoted short candidate
`' short '`, of normalized length 5 < 20. -/
theorem validate_rejects_invalid_witness :
    _clean_key (some (" 'short' ".toList)) = "short".toList ∧
    (_clean_key (some (" 'short' ".toList))).length < 20 ∧
    validate (_clean_key (some (" 'short' ".toList))) = false :=
  ⟨rfl, by decide,
   (validate_rejects_invalid (some (" 'short' ".toList))).2.2 (by decide)⟩

/-- Claim C9 counterexample: on a transport serving a two-organization
list, `sanity_list_orgs` completes, PRINTS the count 2 — but its Python
return value is `None`, not the count. -/
theorem sanity_returns_none_cex :
    sanity_list_orgs transOrgsOk =
      .ok ⟨2, [some (.str "A"), some (.str "B")], .null⟩ ∧
    Json.null ≠ Json.num 2 :=
  ⟨rfl, by simp⟩

/-- If the printed-names comprehension completes and the overall result is
`ok`, the returned value is `None`. -/
theorem map_ok_ret {items : List Json} {n : Nat} {out : SanityOut}
    (hx : (namesComp items).map
      (fun names => (⟨n, names.take 5, .null⟩ : SanityOut)) = .ok out) :
    out.ret = .null := by
  cases hnc : namesComp items with
  | error e =>
    rw [hnc] at hx
    cases hx
  | ok names =>
    rw [hnc] at hx
    simp only [Except.map] at hx
    rw [← Except.ok.inj hx]

/-- If the printed-names comprehension completes and the overall result is
`ok`, the printed count is the one computed by `len`. -/
theorem map_ok_count {items : List Json} {n : Nat} {out : SanityOut}
    (hx : (namesComp items).map
      (fun names => (⟨n, names.take 5, .null⟩ : SanityOut)) = .ok out) :
    out.printedCount = n := by
  cases hnc : namesComp items with
  | error e =>
    rw [hnc] at hx
    cases hx
  | ok names =>
    rw [hnc] at hx
    simp only [Except.map] at hx
    rw [← Except.ok.inj hx]

/-- Claim C9 (amended): `sanity_list_orgs` issues exactly one
organization-list GET through the retrying executor — its behaviour depends
on the transport only at the organizations URL — propagates any executor
error unchanged, and on success PRINTS the item count (plus up to five
names) while RETURNING `None`, not the count. -/
theorem sanity_prints_count_returns_none :
    (∀ (t : Transport) (e : PyErr),
      (pyGetUrl t (BASE ++ "/organizations")).result = .error e →
      sanity_list_orgs t = .error e) ∧
    (∀ t t' : Transport,
      t (BASE ++ "/organizations") = t' (BASE ++ "/organizations") →
      sanity_list_orgs t = sanity_list_orgs t') ∧
    (∀ (t : Transport) (out : SanityOut),
      sanity_list_orgs t = .ok out → out.ret = .null) ∧
    (∀ (t : Transport) (items : List Json) (out : SanityOut),
      (pyGetUrl t (BASE ++ "/organizations")).result = .ok (.arr items) →
      sanity_list_orgs t = .ok out →
      out.printedCount = items.length) := by
  refine ⟨?_, ?_, ?_, ?_⟩
  · intro t e h
    unfold sanity_list_orgs
    rw [h]
  · intro t t' h
    unfold sanity_list_orgs pyGetUrl
    rw [h]
  · intro t out hx
    unfold sanity_list_orgs at hx
    split at hx
    · cases hx
    · split at hx
      · cases hx
      · split at hx
        · exact map_ok_ret hx
        · split at hx
          · rw [← Except.ok.inj hx]
          · cases hx
        · split at hx
          · rw [← Except.ok.inj hx]
          · cases hx
        · cases hx
  · intro t items out hrun hx
    unfold sanity_list_orgs at hx
    rw [hrun] at hx
    dsimp only [pyLen] at hx
    exact map_ok_count hx

/-- Claim C9 witness: the amended theorem applied to concrete transports —
the 401 error propagates unchanged; the successful run returns `None` and
prints the count 2. -/
theorem sanity_prints_count_returns_none_witness :
    sanity_list_orgs transUrl401 =
      .error (.systemExit (authChecklist ++ (resp401.text.take 400))) ∧
    (⟨2, [some (.str "A"), some (.str "B")], Json.null⟩ : SanityOut).ret
      = Json.null ∧
    (⟨2, [some (.str "A"), some (.str "B")], Json.null⟩ : SanityOut).printedCount
      = ([Json.obj [("id", .str "1"), ("name", .str "A")],
          Json.obj [("id", .str "2"), ("name", .str "B")]] : List Json).length :=
  ⟨sanity_prints_count_returns_none.1 transUrl401 _ rfl,
   sanity_prints_count_returns_none.2.2.1 transOrgsOk _ rfl,
   sanity_prints_count_returns_none.2.2.2 transOrgsOk _ _ rfl rfl⟩

end Meraki
